import Mathlib

/-!
# Verification of the Duval-triangle DGA classifier and IEEE C57.104 screening

Shallow embedding of the core functions of `src/main.py`:

* `tern2cart` — ternary-to-Cartesian projection of a gas composition;
* `clasificar_duval` — the ordered Duval Triangle 1 rule classifier;
* the rasterized zone map built inside `plot_duval_triangle` (grid inversion
  of the projection plus the sequential mask assignments into `Z`);
* `ieee_paso1_clasificar_sistema`, `ieee_obtener_limites`,
  `ieee_paso3_condicion` and the static `TABLA_P90` / `TABLA_P95` tables.

Python floats are modelled as exact rationals (`ℚ`); decimal literals such as
`0.01`, `0.2` and `1e-6` become the corresponding exact rationals.  Python
`None`-able values become `Option ℚ`, and the `x or 0` idiom becomes `orZero`.
-/

/-- Zone codes produced by `clasificar_duval`.  `NA` models the string
`"N/A"`, `Fuera` models `"Fuera (suma ≠ 100%)"`. -/
inductive Zona where
  | PD | T1 | T2 | T3 | D1 | D2 | DT | NA | Fuera
deriving DecidableEq, Repr

/-- Python `x or 0` on a possibly-missing numeric value: `None` becomes `0`,
a number is returned unchanged (a numeric `0` is falsy, but `0 or 0 = 0`). -/
def orZero (o : Option ℚ) : ℚ :=
  match o with
  | none => 0
  | some v => v

/-- `tern2cart` from `src/main.py`: converts a (CH4, C2H4, C2H2) percentage
composition to Cartesian coordinates; `x = c2h4/100 + ch4/200`, `y = ch4/100`.
The C2H2 argument is accepted and unused, exactly as in the source. -/
def tern2cart (ch4 c2h4 c2h2 : ℚ) : ℚ × ℚ :=
  (c2h4 / 100 + ch4 / 200, ch4 / 100)

/-- `clasificar_duval` from `src/main.py`: the ordered rule table of Duval
Triangle 1, evaluated top to bottom, with the zero-total and
sum-within-0.01-of-100 checks in front and `DT` as the final default. -/
def clasificar_duval (ch4 c2h4 c2h2 : ℚ) : Zona :=
  if ch4 + c2h4 + c2h2 = 0 then .NA
  else if |ch4 + c2h4 + c2h2 - 100| > 1/100 then .Fuera
  else if ch4 ≥ 98 then .PD
  else if c2h2 < 4 ∧ c2h4 < 20 then .T1
  else if c2h2 < 4 ∧ 20 ≤ c2h4 ∧ c2h4 < 50 then .T2
  else if c2h2 < 15 ∧ c2h4 ≥ 50 then .T3
  else if c2h2 ≥ 13 ∧ c2h4 < 23 then .D1
  else if c2h4 ≥ 23 ∧ c2h2 ≥ 29 then .D2
  else if 23 ≤ c2h4 ∧ c2h4 < 40 ∧ 13 ≤ c2h2 ∧ c2h2 < 29 then .D2
  else if 4 ≤ c2h2 ∧ c2h2 < 13 ∧ c2h4 < 50 then .DT
  else if 40 ≤ c2h4 ∧ c2h4 < 50 ∧ 13 ≤ c2h2 ∧ c2h2 < 29 then .DT
  else if c2h4 ≥ 50 ∧ 15 ≤ c2h2 ∧ c2h2 < 29 then .DT
  else .DT

/-- The spec's rule table (section 4.2, rules 3–12) as an explicit
priority-ordered list of guarded zones; rule 13 is the `DT` default of
`firstMatch`.  Each guard takes `(ch4, c2h4, c2h2)`. -/
def duvalSpecRules : List ((ℚ → ℚ → ℚ → Bool) × Zona) :=
  [ (fun ch4 _ _ => decide (ch4 ≥ 98), .PD),
    (fun _ c2h4 c2h2 => decide (c2h2 < 4 ∧ c2h4 < 20), .T1),
    (fun _ c2h4 c2h2 => decide (c2h2 < 4 ∧ 20 ≤ c2h4 ∧ c2h4 < 50), .T2),
    (fun _ c2h4 c2h2 => decide (c2h2 < 15 ∧ c2h4 ≥ 50), .T3),
    (fun _ c2h4 c2h2 => decide (c2h2 ≥ 13 ∧ c2h4 < 23), .D1),
    (fun _ c2h4 c2h2 => decide (c2h4 ≥ 23 ∧ c2h2 ≥ 29), .D2),
    (fun _ c2h4 c2h2 => decide (23 ≤ c2h4 ∧ c2h4 < 40 ∧ 13 ≤ c2h2 ∧ c2h2 < 29), .D2),
    (fun _ c2h4 c2h2 => decide (4 ≤ c2h2 ∧ c2h2 < 13 ∧ c2h4 < 50), .DT),
    (fun _ c2h4 c2h2 => decide (40 ≤ c2h4 ∧ c2h4 < 50 ∧ 13 ≤ c2h2 ∧ c2h2 < 29), .DT),
    (fun _ c2h4 c2h2 => decide (c2h4 ≥ 50 ∧ 15 ≤ c2h2 ∧ c2h2 < 29), .DT) ]

/-- First-match evaluation of an ordered rule list, `DT` when no guard holds
(the spec's rule 13 catch-all). -/
def firstMatch (rules : List ((ℚ → ℚ → ℚ → Bool) × Zona)) (ch4 c2h4 c2h2 : ℚ) : Zona :=
  match rules with
  | [] => .DT
  | (g, z) :: rest => if g ch4 c2h4 c2h2 then z else firstMatch rest ch4 c2h4 c2h2

/-! ## Rasterized zone map (from `plot_duval_triangle`) -/

/-- The `zonas` list of `plot_duval_triangle`, mapping the numeric values
written into `Z` back to zone codes (index 6 is `DT`, also the default). -/
def zonas : List Zona := [.PD, .T1, .T2, .T3, .D1, .D2, .DT]

/-- Zone code for a raster cell value (index into `zonas`). -/
def zonaOfIdx (i : ℕ) : Zona := zonas.getD i .DT

/-- The sequential masked assignments into `Z` from `plot_duval_triangle`,
restricted to a single inside grid point with ternary components
`(c4, c24, c22)`.  NumPy semantics: each later assignment overwrites the
earlier value wherever its mask holds; the initial value is `6` (`DT`). -/
def rasterVal (c4 c24 c22 : ℚ) : ℕ :=
  let z : ℕ := 6
  let z := if c4 ≥ 98 then 0 else z
  let z := if c22 < 4 ∧ c24 < 20 then 1 else z
  let z := if c22 < 4 ∧ c24 ≥ 20 ∧ c24 < 50 then 2 else z
  let z := if c22 < 15 ∧ c24 ≥ 50 then 3 else z
  let z := if c22 ≥ 13 ∧ c24 < 23 then 4 else z
  let z := if c24 ≥ 23 ∧ c22 ≥ 29 then 5 else z
  let z := if c24 ≥ 23 ∧ c24 < 40 ∧ c22 ≥ 13 ∧ c22 < 29 then 5 else z
  let z := if c22 ≥ 4 ∧ c22 < 13 ∧ c24 < 50 then 6 else z
  let z := if c24 ≥ 40 ∧ c24 < 50 ∧ c22 ≥ 13 ∧ c22 < 29 then 6 else z
  let z := if c24 ≥ 50 ∧ c22 ≥ 15 ∧ c22 < 29 then 6 else z
  z

/-- `np.linspace (10⁻⁶) (1 - 10⁻⁶) n` evaluated at index `k`
(the `xx`/`yy` grid axes of `plot_duval_triangle`). -/
def gridCoord (n k : ℕ) : ℚ :=
  1/1000000 + (k : ℚ) * ((1 - 2/1000000) / ((n : ℚ) - 1))

/-- Grid CH4 component at column `i`, row `j`: `ch4_g = Y * 100`. -/
def ch4_g (n i j : ℕ) : ℚ := gridCoord n j * 100

/-- Grid C2H4 component: `c2h4_g = (X - Y/2) * 100`. -/
def c2h4_g (n i j : ℕ) : ℚ := (gridCoord n i - gridCoord n j / 2) * 100

/-- Grid C2H2 component: `c2h2_g = 100 - ch4_g - c2h4_g`. -/
def c2h2_g (n i j : ℕ) : ℚ := 100 - ch4_g n i j - c2h4_g n i j

/-- The `inside` mask of `plot_duval_triangle`: all three inverted ternary
components are nonnegative at the grid point. -/
def insideGrid (n i j : ℕ) : Prop :=
  ch4_g n i j ≥ 0 ∧ c2h4_g n i j ≥ 0 ∧ c2h2_g n i j ≥ 0

instance (n i j : ℕ) : Decidable (insideGrid n i j) := by
  unfold insideGrid
  infer_instance

/-- The rasterized zone map: the zone painted at an inside grid point (`Z`
stays `NaN` outside, modelled as `none`). -/
def rasterZone (n i j : ℕ) : Option Zona :=
  if insideGrid n i j then
    some (zonaOfIdx (rasterVal (ch4_g n i j) (c2h4_g n i j) (c2h2_g n i j)))
  else none

/-! ## IEEE C57.104-2019 screening (tables and the three steps) -/

/-- The seven gases of `GASES_IEEE`. -/
inductive Gas where
  | H2 | CH4 | C2H6 | C2H4 | C2H2 | CO | CO2
deriving DecidableEq, Repr

/-- The `GASES_IEEE` list, in source order. -/
def GASES_IEEE : List Gas := [.H2, .CH4, .C2H6, .C2H4, .C2H2, .CO, .CO2]

/-- `TABLA_P90` from `src/main.py`: P90 thresholds keyed by O2/N2-ratio key
(`"leq02"` / `"gt02"`) and age key (`"desc"`, `"1_9"`, `"10_30"`, `"30"`).
Present rows hold all seven gases; any other key pair is absent (`none`),
modelling the dict's `.get` with empty default. -/
def TABLA_P90 (ratio_key age_key : String) : Option (Gas → ℚ) :=
  match ratio_key, age_key with
  | "leq02", "desc" => some fun g => match g with
    | .H2 => 80 | .CH4 => 90 | .C2H6 => 90 | .C2H4 => 50 | .C2H2 => 1 | .CO => 900 | .CO2 => 9000
  | "leq02", "1_9" => some fun g => match g with
    | .H2 => 80 | .CH4 => 45 | .C2H6 => 30 | .C2H4 => 20 | .C2H2 => 1 | .CO => 900 | .CO2 => 5000
  | "leq02", "10_30" => some fun g => match g with
    | .H2 => 75 | .CH4 => 90 | .C2H6 => 90 | .C2H4 => 50 | .C2H2 => 1 | .CO => 900 | .CO2 => 10000
  | "leq02", "30" => some fun g => match g with
    | .H2 => 100 | .CH4 => 110 | .C2H6 => 150 | .C2H4 => 90 | .C2H2 => 1 | .CO => 900 | .CO2 => 5000
  | "gt02", "desc" => some fun g => match g with
    | .H2 => 40 | .CH4 => 20 | .C2H6 => 15 | .C2H4 => 50 | .C2H2 => 2 | .CO => 500 | .CO2 => 3500
  | "gt02", "1_9" => some fun g => match g with
    | .H2 => 40 | .CH4 => 20 | .C2H6 => 15 | .C2H4 => 25 | .C2H2 => 2 | .CO => 500 | .CO2 => 3500
  | "gt02", "10_30" => some fun g => match g with
    | .H2 => 40 | .CH4 => 20 | .C2H6 => 15 | .C2H4 => 60 | .C2H2 => 2 | .CO => 500 | .CO2 => 5500
  | "gt02", "30" => some fun g => match g with
    | .H2 => 40 | .CH4 => 20 | .C2H6 => 15 | .C2H4 => 60 | .C2H2 => 2 | .CO => 500 | .CO2 => 5500
  | _, _ => none

/-- `TABLA_P95` from `src/main.py`, same keying as `TABLA_P90`. -/
def TABLA_P95 (ratio_key age_key : String) : Option (Gas → ℚ) :=
  match ratio_key, age_key with
  | "leq02", "desc" => some fun g => match g with
    | .H2 => 200 | .CH4 => 150 | .C2H6 => 175 | .C2H4 => 100 | .C2H2 => 2 | .CO => 1100 | .CO2 => 12500
  | "leq02", "1_9" => some fun g => match g with
    | .H2 => 200 | .CH4 => 100 | .C2H6 => 70 | .C2H4 => 40 | .C2H2 => 2 | .CO => 1100 | .CO2 => 7000
  | "leq02", "10_30" => some fun g => match g with
    | .H2 => 200 | .CH4 => 150 | .C2H6 => 175 | .C2H4 => 95 | .C2H2 => 2 | .CO => 1100 | .CO2 => 14000
  | "leq02", "30" => some fun g => match g with
    | .H2 => 200 | .CH4 => 200 | .C2H6 => 250 | .C2H4 => 175 | .C2H2 => 4 | .CO => 1100 | .CO2 => 14000
  | "gt02", "desc" => some fun g => match g with
    | .H2 => 90 | .CH4 => 50 | .C2H6 => 40 | .C2H4 => 100 | .C2H2 => 7 | .CO => 600 | .CO2 => 7000
  | "gt02", "1_9" => some fun g => match g with
    | .H2 => 90 | .CH4 => 60 | .C2H6 => 30 | .C2H4 => 80 | .C2H2 => 7 | .CO => 600 | .CO2 => 5000
  | "gt02", "10_30" => some fun g => match g with
    | .H2 => 90 | .CH4 => 60 | .C2H6 => 40 | .C2H4 => 125 | .C2H2 => 7 | .CO => 600 | .CO2 => 8000
  | "gt02", "30" => some fun g => match g with
    | .H2 => 90 | .CH4 => 80 | .C2H6 => 40 | .C2H4 => 125 | .C2H2 => 7 | .CO => 600 | .CO2 => 8000
  | _, _ => none

/-- `ieee_paso1_clasificar_sistema` from `src/main.py`: returns `None` when
`n2_ppm` is `None` or `0`; otherwise the ratio `(o2 or 0)/n2` decides between
the `"leq02"` (sealed) and `"gt02"` (free-breathing) keys. -/
def ieee_paso1_clasificar_sistema (o2_ppm n2_ppm : Option ℚ) : Option (String × String) :=
  match n2_ppm with
  | none => none
  | some n2 =>
    if n2 = 0 then none
    else if orZero o2_ppm / n2 ≤ 1/5 then some ("leq02", "Sellado (O2/N2 <= 0.2)")
    else some ("gt02", "Respiracion libre (O2/N2 > 0.2)")

/-- Dict-row access for `ieee_paso3_condicion`: a present row answers
`some (f g)` for every gas, an absent row (the `{}` default of
`ieee_obtener_limites`) answers `none` for every gas. -/
def dictGet (row : Option (Gas → ℚ)) : Gas → Option ℚ :=
  match row with
  | none => fun _ => none
  | some f => fun g => some (f g)

/-- `ieee_obtener_limites` from `src/main.py`: the (P90, P95) rows for a
(ratio, age) key pair; a missing combination yields the empty row. -/
def ieee_obtener_limites (ratio_key age_key : String) : (Gas → Option ℚ) × (Gas → Option ℚ) :=
  (dictGet (TABLA_P90 ratio_key age_key), dictGet (TABLA_P95 ratio_key age_key))

/-- `ieee_paso3_condicion` from `src/main.py`: scans the seven gases, setting
`alguno_p95` / `alguno_p90` whenever `(v or 0) ≥ (lim or 0)` for the P95/P90
limit, then returns condition 3, 2 or 1 with its label and recommendation. -/
def ieee_paso3_condicion (valores_ppm p90 p95 : Gas → Option ℚ) : ℕ × String × String :=
  let flags := GASES_IEEE.foldl
    (fun (acc : Bool × Bool) g =>
      let v := orZero (valores_ppm g)
      let lim95 := orZero (p95 g)
      let lim90 := orZero (p90 g)
      let alguno_p95 := if v ≥ lim95 then true else acc.1
      let alguno_p90 := if v ≥ lim90 then true else acc.2
      (alguno_p95, alguno_p90))
    (false, false)
  if flags.1 then
    (3, "Condicion 3 (Alta/Alerta)", "Los gases superan el percentil 95. Alta probabilidad de falla activa o reciente; se requiere investigacion inmediata.")
  else if flags.2 then
    (2, "Condicion 2 (Precaucion)", "Al menos un gas supera el percentil 90 pero es menor al 95. Aumentar la frecuencia de muestreo para vigilar la tendencia.")
  else
    (1, "Condicion 1 (Normal)", "Todos los gases estan por debajo del percentil 90. Continuar con el muestreo normal.")

/-! ## Helper lemmas -/

/-- The two accumulated flags of the gas scan: folding the flag-setting step
over a gas list computes, for each flag, whether the start value was already
set or some listed gas satisfies the corresponding comparison. -/
lemma foldl_or_flags (f95 f90 : Gas → Prop) [DecidablePred f95] [DecidablePred f90]
    (l : List Gas) (b : Bool × Bool) :
    l.foldl (fun (acc : Bool × Bool) g =>
        (if f95 g then true else acc.1, if f90 g then true else acc.2)) b
      = (b.1 || l.any fun g => decide (f95 g), b.2 || l.any fun g => decide (f90 g)) := by
  induction l generalizing b with
  | nil => simp
  | cons x xs ih =>
    simp only [List.foldl_cons, List.any_cons, ih]
    by_cases h : f95 x <;> by_cases h' : f90 x <;> simp [h, h', Bool.or_assoc]

/-- Characterization of `ieee_paso3_condicion`: the numeric condition is `3`
when some listed gas reads at least its (defaulted) P95 limit, else `2` when
some gas reads at least its P90 limit, else `1`. -/
lemma ieee_paso3_condicion_eq (valores_ppm p90 p95 : Gas → Option ℚ) :
    (ieee_paso3_condicion valores_ppm p90 p95).1 =
      if ∃ g ∈ GASES_IEEE, orZero (valores_ppm g) ≥ orZero (p95 g) then 3
      else if ∃ g ∈ GASES_IEEE, orZero (valores_ppm g) ≥ orZero (p90 g) then 2
      else 1 := by
  simp only [ieee_paso3_condicion]
  rw [foldl_or_flags (fun g => orZero (valores_ppm g) ≥ orZero (p95 g))
    (fun g => orZero (valores_ppm g) ≥ orZero (p90 g)) GASES_IEEE (false, false)]
  simp only [Bool.false_or, List.any_eq_true, decide_eq_true_eq]
  split_ifs <;> rfl

set_option maxHeartbeats 1600000 in
/-- On any composition summing exactly to 100 with CH4 below 98, the raster
cell value decodes to exactly the zone `clasificar_duval` returns: away from
the PD region the ten masks with distinct zone values are pairwise disjoint,
so NumPy's last-write-wins evaluation and the classifier's first-match
evaluation coincide. -/
lemma rasterVal_eq_clasificar (c4 c24 c22 : ℚ) (hsum : c4 + c24 + c22 = 100)
    (hpd : c4 < 98) :
    zonaOfIdx (rasterVal c4 c24 c22) = clasificar_duval c4 c24 c22 := by
  have h0 : ¬ c4 + c24 + c22 = 0 := by rw [hsum]; norm_num
  have h1 : ¬ |c4 + c24 + c22 - 100| > 1/100 := by rw [hsum]; norm_num
  have h98 : ¬ c4 ≥ 98 := not_le.mpr hpd
  simp only [clasificar_duval, rasterVal, if_neg h0, if_neg h1, if_neg h98,
    ge_iff_le]
  split_ifs <;> first | rfl | (exfalso; casesm* _ ∧ _ ; linarith)

/-- An if-then-else lands in a list as soon as both branches do. -/
lemma ite_mem_list {α : Type} (c : Prop) [Decidable c] (a b : α) (L : List α)
    (ha : a ∈ L) (hb : b ∈ L) : (if c then a else b) ∈ L := by
  by_cases h : c
  · simpa [h]
  · simpa [h]

/-- An if-then-else avoids a value as soon as both branches do. -/
lemma ite_ne_of_ne {α : Type} (c : Prop) [Decidable c] (a b : α) (z : α)
    (ha : a ≠ z) (hb : b ≠ z) : (if c then a else b) ≠ z := by
  by_cases h : c
  · simpa [h]
  · simpa [h]

/-! ## Claim theorems -/

/-- C1: `clasificar_duval` evaluates the Duval rule table as an ordered
sequence with first match winning and `DT` as the final catch-all: for every
composition passing the zero-total and sum-within-0.01-of-100 checks, the
result is the first-match evaluation of the spec's ordered rule list
(section 4.2, rules 3-13); in particular `classify(10,10,80) = D1` and
`classify(90,5,5) = DT`. -/
theorem clasificar_duval_ordered_first_match :
    (∀ ch4 c2h4 c2h2 : ℚ, ch4 + c2h4 + c2h2 ≠ 0 →
      |ch4 + c2h4 + c2h2 - 100| ≤ 1/100 →
      clasificar_duval ch4 c2h4 c2h2 = firstMatch duvalSpecRules ch4 c2h4 c2h2)
    ∧ clasificar_duval 10 10 80 = .D1 ∧ clasificar_duval 90 5 5 = .DT := by
  refine ⟨fun ch4 c2h4 c2h2 h0 h1 => ?_, by norm_num [clasificar_duval],
    by norm_num [clasificar_duval]⟩
  simp only [clasificar_duval, duvalSpecRules, firstMatch, if_neg h0,
    if_neg (not_lt.mpr h1), decide_eq_true_eq]

/-- Witness for C1: the theorem applied at the concrete composition
`(10, 10, 80)`, whose checks both pass. -/
theorem clasificar_duval_ordered_first_match_witness :
    clasificar_duval 10 10 80 = firstMatch duvalSpecRules 10 10 80 :=
  clasificar_duval_ordered_first_match.1 10 10 80 (by norm_num) (by norm_num)

/-- C5: every composition summing exactly to 100 with `ch4 ≥ 98` is
classified `PD`. -/
theorem clasificar_duval_pd_of_ch4_ge_98 (ch4 c2h4 c2h2 : ℚ)
    (hsum : ch4 + c2h4 + c2h2 = 100) (h98 : ch4 ≥ 98) :
    clasificar_duval ch4 c2h4 c2h2 = .PD := by
  have h0 : ¬ ch4 + c2h4 + c2h2 = 0 := by rw [hsum]; norm_num
  have h1 : ¬ |ch4 + c2h4 + c2h2 - 100| > 1/100 := by rw [hsum]; norm_num
  simp only [clasificar_duval, if_neg h0, if_neg h1, if_pos h98]

/-- Witness for C5 at `(98, 1, 1)`. -/
theorem clasificar_duval_pd_of_ch4_ge_98_witness :
    clasificar_duval 98 1 1 = .PD :=
  clasificar_duval_pd_of_ch4_ge_98 98 1 1 (by norm_num) (by norm_num)

/-- C7: malformed input is surfaced through sentinel values, never an
exception: `classify(0,0,0)` is `N/A` (the zero-total check runs before the
sum check), `classify(50,50,0.5)` is the out-of-range sentinel
(`|100.5 - 100| > 0.01`), and the classifier is total — every well-typed
input yields one of the enumerated codes. -/
theorem clasificar_duval_sentinels_total :
    clasificar_duval 0 0 0 = .NA
    ∧ clasificar_duval 50 50 (1/2) = .Fuera
    ∧ ∀ ch4 c2h4 c2h2 : ℚ, clasificar_duval ch4 c2h4 c2h2 ∈
        [Zona.PD, .T1, .T2, .T3, .D1, .D2, .DT, .NA, .Fuera] := by
  refine ⟨by norm_num [clasificar_duval], by norm_num [clasificar_duval, abs_of_pos],
    fun ch4 c2h4 c2h2 => ?_⟩
  unfold clasificar_duval
  repeat refine ite_mem_list _ _ _ _ (by decide) ?_
  decide

/-- C8: `tern2cart` computes exactly `x = c2h4/100 + ch4/200`,
`y = ch4/100`, with no validation, so the three pure compositions map to the
fixed triangle vertices. -/
theorem tern2cart_formula_and_vertices :
    (∀ ch4 c2h4 c2h2 : ℚ,
      tern2cart ch4 c2h4 c2h2 = (c2h4 / 100 + ch4 / 200, ch4 / 100))
    ∧ tern2cart 100 0 0 = (1/2, 1)
    ∧ tern2cart 0 100 0 = (1, 0)
    ∧ tern2cart 0 0 100 = (0, 0) := by
  refine ⟨fun _ _ _ => rfl, by norm_num [tern2cart], by norm_num [tern2cart],
    by norm_num [tern2cart]⟩

/-- C10: `clasificar_duval` returns `N/A` exactly when the *total*
`ch4 + c2h4 + c2h2` is zero — not only when all three inputs are zero; in
particular `classify(-5, 5, 0) = N/A` and is not the out-of-range
sentinel, because the zero-total check runs before the sum-deviation
check. -/
theorem clasificar_duval_na_iff_total_zero :
    (∀ ch4 c2h4 c2h2 : ℚ,
      clasificar_duval ch4 c2h4 c2h2 = .NA ↔ ch4 + c2h4 + c2h2 = 0)
    ∧ clasificar_duval (-5) 5 0 = .NA := by
  refine ⟨fun ch4 c2h4 c2h2 => ?_, by norm_num [clasificar_duval]⟩
  constructor
  · intro h
    by_contra hne
    rw [clasificar_duval, if_neg hne] at h
    revert h
    repeat refine ite_ne_of_ne _ _ _ _ (by decide) ?_
    decide
  · intro h
    simp [clasificar_duval, h]

/-- C2 counterexample: at the fixed resolution 120 ≥ 50 used by the code, the
inside grid sample at column 59, row 117 has CH4 ≈ 98.32 ≥ 98; the rasterized
zone map paints it `T1` (the `T1` mask is assigned after the `PD` mask and
covers the whole PD corner, where `inside` forces `c2h4, c2h2 ≤ 2`), while
`clasificar_duval` returns `PD` — so the zone map and the classifier do not
agree at every inside grid sample. -/
theorem rasterZone_ne_clasificar_in_PD_region :
    50 ≤ 120 ∧ insideGrid 120 59 117
    ∧ rasterZone 120 59 117 = some Zona.T1
    ∧ clasificar_duval (ch4_g 120 59 117) (c2h4_g 120 59 117) (c2h2_g 120 59 117)
        = Zona.PD
    ∧ rasterZone 120 59 117
        ≠ some (clasificar_duval (ch4_g 120 59 117) (c2h4_g 120 59 117)
            (c2h2_g 120 59 117)) := by
  have hin : insideGrid 120 59 117 := by
    norm_num [insideGrid, c2h2_g, ch4_g, c2h4_g, gridCoord]
  have hr : rasterZone 120 59 117 = some Zona.T1 := by
    rw [rasterZone, if_pos hin]
    norm_num [rasterVal, ch4_g, c2h4_g, c2h2_g, gridCoord, zonaOfIdx, zonas]
  have hc : clasificar_duval (ch4_g 120 59 117) (c2h4_g 120 59 117)
      (c2h2_g 120 59 117) = Zona.PD := by
    norm_num [clasificar_duval, ch4_g, c2h4_g, c2h2_g, gridCoord]
  exact ⟨by norm_num, hin, hr, hc, by rw [hr, hc]; simp⟩

/-- C2 (amended): for any grid resolution `n ≥ 50`, the rasterized zone map
and `clasificar_duval` assign the same zone at every inside grid sample whose
CH4 component is below 98; only the PD region (`ch4 ≥ 98`) disagrees, where
the raster paints `T1` but the classifier returns `PD`. -/
theorem rasterZone_eq_clasificar_below_PD (n i j : ℕ) (hn : 50 ≤ n)
    (hin : insideGrid n i j) (hpd : ch4_g n i j < 98) :
    rasterZone n i j
      = some (clasificar_duval (ch4_g n i j) (c2h4_g n i j) (c2h2_g n i j)) := by
  have hsum : ch4_g n i j + c2h4_g n i j + c2h2_g n i j = 100 := by
    unfold c2h2_g; ring
  rw [rasterZone, if_pos hin, rasterVal_eq_clasificar _ _ _ hsum hpd]

/-- Witness for the amended C2 at the corner sample of a 50×50 grid. -/
theorem rasterZone_eq_clasificar_below_PD_witness :
    rasterZone 50 0 0
      = some (clasificar_duval (ch4_g 50 0 0) (c2h4_g 50 0 0) (c2h2_g 50 0 0)) :=
  rasterZone_eq_clasificar_below_PD 50 0 0 (by norm_num)
    (by norm_num [insideGrid, c2h2_g, ch4_g, c2h4_g, gridCoord])
    (by norm_num [ch4_g, gridCoord])

/-- C3 counterexample: with every threshold absent (empty P90/P95 rows, as
returned by `ieee_obtener_limites` for an unknown key) and an all-zero panel,
`ieee_paso3_condicion` reports condition 3 (ALERT), because a missing
threshold is defaulted to 0 and the comparison `reading ≥ threshold` is
inclusive, so `0 ≥ 0` triggers; with the real SEALED/UNKNOWN-age rows the
same panel reports condition 1 (NORMAL).  Absence of a limit therefore *does*
produce an alert, contrary to the claim. -/
theorem missing_threshold_alert_on_empty_rows :
    (ieee_paso3_condicion (fun _ => some 0) (fun _ => none) (fun _ => none)).1 = 3
    ∧ (ieee_paso3_condicion (fun _ => some 0)
        (ieee_obtener_limites "leq02" "desc").1
        (ieee_obtener_limites "leq02" "desc").2).1 = 1 := by
  constructor
  · rw [ieee_paso3_condicion_eq]
    norm_num [GASES_IEEE, orZero]
  · rw [ieee_paso3_condicion_eq]
    norm_num [GASES_IEEE, ieee_obtener_limites, TABLA_P90, TABLA_P95, dictGet, orZero]

/-- C3 (amended): missing gas readings and missing thresholds are both
treated as 0, and because the comparison is inclusive (`≥`), a gas whose P95
threshold is absent from the looked-up rows *always* triggers ALERT whenever
its (defaulted) reading is nonnegative — absence of a limit produces a
positive, it never suppresses one. -/
theorem missing_threshold_forces_alert (valores_ppm p90 p95 : Gas → Option ℚ)
    (g : Gas) (hg : g ∈ GASES_IEEE) (h95 : p95 g = none)
    (hv : 0 ≤ orZero (valores_ppm g)) :
    (ieee_paso3_condicion valores_ppm p90 p95).1 = 3 := by
  rw [ieee_paso3_condicion_eq, if_pos ⟨g, hg, by rw [h95]; exact hv⟩]

/-- Witness for the amended C3: H2 with reading 0 and empty threshold rows. -/
theorem missing_threshold_forces_alert_witness :
    (ieee_paso3_condicion (fun _ => some 0) (fun _ => none) (fun _ => none)).1 = 3 :=
  missing_threshold_forces_alert (fun _ => some 0) (fun _ => none) (fun _ => none)
    Gas.H2 (by decide) rfl le_rfl

/-- C4: `ieee_paso3_condicion` returns exactly one of the three levels by
maximum severity over the seven gases with inclusive comparisons — 3 (ALERT)
if some gas reads at least its P95 limit, else 2 (CAUTION) if some gas reads
at least its P90 limit, else 1 (NORMAL); in particular CH4 = 150 against the
SEALED / age-UNKNOWN row (P90 = 90, P95 = 150) yields ALERT since
150 ≥ 150. -/
theorem ieee_paso3_condicion_max_severity :
    (∀ valores_ppm p90 p95 : Gas → Option ℚ,
      (ieee_paso3_condicion valores_ppm p90 p95).1 =
        if ∃ g ∈ GASES_IEEE, orZero (valores_ppm g) ≥ orZero (p95 g) then 3
        else if ∃ g ∈ GASES_IEEE, orZero (valores_ppm g) ≥ orZero (p90 g) then 2
        else 1)
    ∧ (ieee_paso3_condicion
        (fun g => match g with | .CH4 => some 150 | _ => some 0)
        (ieee_obtener_limites "leq02" "desc").1
        (ieee_obtener_limites "leq02" "desc").2).1 = 3 := by
  refine ⟨ieee_paso3_condicion_eq, ?_⟩
  rw [ieee_paso3_condicion_eq]
  norm_num [GASES_IEEE, ieee_obtener_limites, TABLA_P90, TABLA_P95, dictGet, orZero]

/-- C6: `ieee_paso1_clasificar_sistema` returns the unknown regime (`none`)
exactly when N2 is absent or zero; otherwise it is SEALED (`"leq02"`) iff
`o2/n2 ≤ 0.2` (boundary inclusive) and FREE_BREATHING (`"gt02"`) iff
`o2/n2 > 0.2`; in particular (20, 100) is SEALED, (21, 100) is
FREE_BREATHING and (5, 0) is unknown. -/
theorem ieee_paso1_regime_boundaries :
    (∀ o2_ppm : Option ℚ,
      ieee_paso1_clasificar_sistema o2_ppm none = none
      ∧ ieee_paso1_clasificar_sistema o2_ppm (some 0) = none)
    ∧ (∀ (o2_ppm : Option ℚ) (n2 : ℚ), n2 ≠ 0 →
      (((ieee_paso1_clasificar_sistema o2_ppm (some n2)).map Prod.fst = some "leq02"
          ↔ orZero o2_ppm / n2 ≤ 1/5)
        ∧ ((ieee_paso1_clasificar_sistema o2_ppm (some n2)).map Prod.fst = some "gt02"
          ↔ 1/5 < orZero o2_ppm / n2)))
    ∧ (ieee_paso1_clasificar_sistema (some 20) (some 100)).map Prod.fst = some "leq02"
    ∧ (ieee_paso1_clasificar_sistema (some 21) (some 100)).map Prod.fst = some "gt02"
    ∧ ieee_paso1_clasificar_sistema (some 5) (some 0) = none := by
  have hs : ("leq02" : String) ≠ "gt02" := by decide
  refine ⟨fun o2 => ⟨rfl, by simp [ieee_paso1_clasificar_sistema]⟩,
    fun o2 n2 hn2 => ?_,
    by norm_num [ieee_paso1_clasificar_sistema, orZero],
    by norm_num [ieee_paso1_clasificar_sistema, orZero],
    by simp [ieee_paso1_clasificar_sistema]⟩
  simp only [ieee_paso1_clasificar_sistema]
  rw [if_neg hn2]
  by_cases h : orZero o2 / n2 ≤ 1/5
  · rw [if_pos h]
    refine ⟨?_, ?_⟩ <;> simp [hs, not_lt.mpr h] <;> linarith
  · rw [if_neg h]
    refine ⟨?_, ?_⟩ <;> simp [hs.symm, h] <;> linarith

/-- Witness for C6 at the inclusive boundary (O2 = 20, N2 = 100). -/
theorem ieee_paso1_regime_boundaries_witness :
    ((ieee_paso1_clasificar_sistema (some 20) (some 100)).map Prod.fst = some "leq02"
      ↔ orZero (some 20) / 100 ≤ 1/5) :=
  (ieee_paso1_regime_boundaries.2.1 (some 20) 100 (by norm_num)).1

/-- C9: an all-zero gas panel yields condition 1 (NORMAL) for every valid
(regime, age) key pair — every stored threshold is at least 1, so no
inclusive comparison triggers. -/
theorem zero_panel_normal_all_valid_keys (ratio_key age_key : String)
    (hrk : ratio_key = "leq02" ∨ ratio_key = "gt02")
    (hak : age_key = "desc" ∨ age_key = "1_9" ∨ age_key = "10_30" ∨ age_key = "30") :
    (ieee_paso3_condicion (fun _ => some 0)
      (ieee_obtener_limites ratio_key age_key).1
      (ieee_obtener_limites ratio_key age_key).2).1 = 1 := by
  rcases hrk with rfl | rfl <;> rcases hak with rfl | rfl | rfl | rfl <;>
    (rw [ieee_paso3_condicion_eq];
     norm_num [GASES_IEEE, ieee_obtener_limites, TABLA_P90, TABLA_P95, dictGet, orZero])

/-- Witness for C9 at the SEALED / age-unknown keys. -/
theorem zero_panel_normal_all_valid_keys_witness :
    (ieee_paso3_condicion (fun _ => some 0)
      (ieee_obtener_limites "leq02" "desc").1
      (ieee_obtener_limites "leq02" "desc").2).1 = 1 :=
  zero_panel_normal_all_valid_keys "leq02" "desc" (Or.inl rfl) (Or.inl rfl)
